import Mathlib

/-!
Shallow embedding of the wlcs-rs FFI wrapper layer, translated from
src/lib.rs (the Wlcs / Pointer / Touch traits) and src/ffi_wrappers.rs
(the handle types, the container-of identity recovery, the operation
tables and the boundary trampolines).

Modelling conventions:
- Raw pointers are machine addresses (Nat); address 0 is the null pointer.
- The process heap of live handles is an association list from the base
  address of each Box allocation to the Handle value stored there.
- `container_of!(ptr, T, field)` subtracts a type-fixed field offset from
  the header-field pointer; the concrete offsets are compiler-chosen, so
  the model is parametric in a `Layout` record of the three offsets.
- A user capability method either returns normally (`Except.ok`) or
  panics (`Except.error`); for `&mut self` methods the error payload is
  the (possibly partially mutated) state left behind by the panic.
- `std::panic::catch_unwind` in a trampoline corresponds to mapping the
  method's `Except.error` outcome to the sentinel result plus a
  `panic_logged` diagnostic event (the `println!` in the source).
- Each trampoline returns the successor process state together with the
  list of observable events it performed, in source order: the
  `sigaction` call, user-method invocations, `Box::into_raw` /
  `Box::from_raw`, the drop of a reclaimed Box (which runs the embedded
  implementation's drop and releases the storage), and panic diagnostics.
- Calling a trampoline on a pointer that is not a live header pointer is
  undefined behaviour by contract in the source; the model makes that
  branch a no-op, and every theorem hypothesises a live handle.
-/

namespace WlcsRs

/-- Raw pointers as machine addresses; 0 plays the role of `std::ptr::null_mut`. -/
abbrev Ptr := Nat

/-- Name of a user capability method, used to record dispatches into the
user implementation (`server.wlcs.start()`, `pointer.p.move_absolute(..)`, ...). -/
inductive MethodName where
  | start
  | stop
  | create_client_socket
  | position_window_absolute
  | create_pointer
  | create_touch
  | get_descriptor
  | start_on_this_thread
  | move_absolute
  | move_relative
  | button_up
  | button_down
  | destroy
  | touch_down
  | touch_move
  | touch_up
deriving DecidableEq

/-- Name of a trampoline function, used both as the content of an
operation-table slot (the function pointer stored there) and to identify
which trampoline logged a caught panic. -/
inductive FnName where
  | create_server_ffi
  | destroy_server_ffi
  | start_server_ffi
  | stop_server_ffi
  | create_client_socket_ffi
  | position_window_absolute_ffi
  | create_pointer_ffi
  | create_touch_ffi
  | get_descriptor_ffi
  | start_on_this_thread_ffi
  | pointer_move_absolute_ffi
  | pointer_move_relative_ffi
  | pointer_button_up_ffi
  | pointer_button_down_ffi
  | pointer_destroy_ffi
  | touch_down_ffi
  | touch_move_ffi
  | touch_up_ffi
  | touch_destroy_ffi
deriving DecidableEq

/-- Observable events of a trampoline call, in execution order. -/
inductive Event where
  | sigaction_ignore_sigpipe
  | call_new
  | call_method (m : MethodName)
  | box_into_raw (addr : Ptr)
  | box_from_raw (addr : Ptr)
  | drop_box (addr : Ptr)
  | panic_logged (fn : FnName)
deriving DecidableEq

/-- First entry of the association list at key `a`, if any. -/
def lookupAssoc {α : Type} (a : Ptr) : List (Ptr × α) → Option α
  | [] => none
  | (k, v) :: rest => if k = a then some v else lookupAssoc a rest

/-- Replace the value stored at key `a` (first occurrence) by `v`. -/
def updateAssoc {α : Type} (a : Ptr) (v : α) : List (Ptr × α) → List (Ptr × α)
  | [] => []
  | (k, w) :: rest => if k = a then (k, v) :: rest else (k, w) :: updateAssoc a v rest

/-- Remove the entry stored at key `a` (first occurrence). -/
def removeAssoc {α : Type} (a : Ptr) : List (Ptr × α) → List (Ptr × α)
  | [] => []
  | (k, w) :: rest => if k = a then rest else (k, w) :: removeAssoc a rest

/-- The `WlcsDisplayServer` instance-table header: a version tag followed by
the eight operation-pointer slots, in the order of the C struct. -/
structure WlcsDisplayServer where
  version : Nat
  start : Option FnName
  stop : Option FnName
  create_client_socket : Option FnName
  position_window_absolute : Option FnName
  create_pointer : Option FnName
  create_touch : Option FnName
  get_descriptor : Option FnName
  start_on_this_thread : Option FnName
deriving DecidableEq

/-- The `WlcsServerIntegration` factory-table header: version tag plus the
create / destroy slots. -/
structure WlcsServerIntegration where
  version : Nat
  create_server : Option FnName
  destroy_server : Option FnName
deriving DecidableEq

/-- The `WlcsPointer` pointer-table header: version tag plus five slots. -/
structure WlcsPointer where
  version : Nat
  move_absolute : Option FnName
  move_relative : Option FnName
  button_up : Option FnName
  button_down : Option FnName
  destroy : Option FnName
deriving DecidableEq

/-- The `WlcsTouch` touch-table header: version tag plus four slots. -/
structure WlcsTouch where
  version : Nat
  touch_down : Option FnName
  touch_move : Option FnName
  touch_up : Option FnName
  destroy : Option FnName
deriving DecidableEq

/-- Model of the `Wlcs` trait from src/lib.rs, over an implementation state
type `σ` and the associated pointer / touch state types `π`, `τ`.
`&mut self` methods return `Except σ _` whose error payload is the state
left behind by a panic; `&self` methods cannot mutate and return
`Except Unit _`. File descriptors, descriptor references and the
`wl_display` / `wl_proxy` / `wl_event_loop` arguments are opaque scalars. -/
structure Wlcs (σ π τ : Type) where
  new : Except Unit σ
  start : σ → Except σ σ
  stop : σ → Except σ σ
  create_client_socket : σ → Except Unit Int
  position_window_absolute : σ → Ptr → Ptr → Int → Int → Except Unit Unit
  create_pointer : σ → Except σ (σ × Option π)
  create_touch : σ → Except σ (σ × Option τ)
  get_descriptor : σ → Except Unit Ptr
  start_on_this_thread : σ → Ptr → Except Unit Unit

/-- Model of the `Pointer` trait from src/lib.rs. -/
structure Pointer (π : Type) where
  move_absolute : π → Int → Int → Except π π
  move_relative : π → Int → Int → Except π π
  button_up : π → Int → Except π π
  button_down : π → Int → Except π π
  destroy : π → Except π π

/-- Model of the `Touch` trait from src/lib.rs. -/
structure Touch (τ : Type) where
  touch_down : τ → Int → Int → Except τ τ
  touch_move : τ → Int → Int → Except τ τ
  touch_up : τ → Except τ τ
  destroy : τ → Except τ τ

/-- `DisplayServerHandle<W>`: the intrusive header followed by the user
implementation object. -/
structure DisplayServerHandle (σ : Type) where
  wlcs_display_server : WlcsDisplayServer
  wlcs : σ
deriving DecidableEq

/-- `PointerHandle<W>`. -/
structure PointerHandle (π : Type) where
  wlcs_pointer : WlcsPointer
  p : π
deriving DecidableEq

/-- `TouchHandle<W>`. -/
structure TouchHandle (τ : Type) where
  wlcs_touch : WlcsTouch
  t : τ
deriving DecidableEq

/-- Compiler-chosen field offsets of the header field within each handle
struct (`offset_of!` as used by `container_of!`). -/
structure Layout where
  dsOff : Nat
  pOff : Nat
  tOff : Nat

/-- The process state visible to the trampolines: the live handles of each
kind keyed by Box base address, the allocator cursor, and whether the
SIGPIPE ignore disposition has been installed. -/
structure ProcState (σ π τ : Type) where
  servers : List (Ptr × DisplayServerHandle σ)
  pointers : List (Ptr × PointerHandle π)
  touches : List (Ptr × TouchHandle τ)
  nextAddr : Nat
  sigpipe_ignored : Bool
deriving DecidableEq

/-- `get_display_server_handle_mut`: recover the enclosing
`DisplayServerHandle` from a header pointer by subtracting the header
field's offset (`container_of!`). -/
def get_display_server_handle_mut {σ π τ : Type} (L : Layout) (st : ProcState σ π τ)
    (ptr : Ptr) : Option (DisplayServerHandle σ) :=
  lookupAssoc (ptr - L.dsOff) st.servers

/-- `get_display_server_handle_ref`: the shared (read-only) variant; the
same container-of computation. -/
def get_display_server_handle_ref {σ π τ : Type} (L : Layout) (st : ProcState σ π τ)
    (ptr : Ptr) : Option (DisplayServerHandle σ) :=
  lookupAssoc (ptr - L.dsOff) st.servers

/-- `get_pointer_handle`: recover the enclosing `PointerHandle`. -/
def get_pointer_handle {σ π τ : Type} (L : Layout) (st : ProcState σ π τ)
    (ptr : Ptr) : Option (PointerHandle π) :=
  lookupAssoc (ptr - L.pOff) st.pointers

/-- `get_touch_handle`: recover the enclosing `TouchHandle`. -/
def get_touch_handle {σ π τ : Type} (L : Layout) (st : ProcState σ π τ)
    (ptr : Ptr) : Option (TouchHandle τ) :=
  lookupAssoc (ptr - L.tOff) st.touches

/-- `wlcs_display_server::<W>()`: the statically built instance table. -/
def wlcs_display_server : WlcsDisplayServer where
  version := 3
  start := some .start_server_ffi
  stop := some .stop_server_ffi
  create_client_socket := some .create_client_socket_ffi
  position_window_absolute := some .position_window_absolute_ffi
  create_pointer := some .create_pointer_ffi
  create_touch := some .create_touch_ffi
  get_descriptor := some .get_descriptor_ffi
  start_on_this_thread := some .start_on_this_thread_ffi

/-- `wlcs_server::<W>()`: the statically built factory table. -/
def wlcs_server : WlcsServerIntegration where
  version := 1
  create_server := some .create_server_ffi
  destroy_server := some .destroy_server_ffi

/-- `wlcs_pointer::<W>()`: the statically built pointer table. -/
def wlcs_pointer : WlcsPointer where
  version := 1
  move_absolute := some .pointer_move_absolute_ffi
  move_relative := some .pointer_move_relative_ffi
  button_up := some .pointer_button_up_ffi
  button_down := some .pointer_button_down_ffi
  destroy := some .pointer_destroy_ffi

/-- `wlcs_touch::<W>()`: the statically built touch table. -/
def wlcs_touch : WlcsTouch where
  version := 1
  touch_down := some .touch_down_ffi
  touch_move := some .touch_move_ffi
  touch_up := some .touch_up_ffi
  destroy := some .touch_destroy_ffi

/-- `create_server_ffi::<W>`: install the SIGPIPE ignore disposition, run
`W::new()`, box the result into a fresh `DisplayServerHandle` and return the
address of its embedded `wlcs_display_server` field; a panic (in `W::new()`)
is caught and converted to the null pointer. The `argc` / `argv` arguments
are ignored by the source. -/
def create_server_ffi {σ π τ : Type} (W : Wlcs σ π τ) (L : Layout) (st : ProcState σ π τ)
    (_argc : Int) (_argv : Ptr) : ProcState σ π τ × List Event × Ptr :=
  match W.new with
  | .ok s =>
    let a := st.nextAddr
    ({ st with
        servers := (a, ⟨wlcs_display_server, s⟩) :: st.servers
        nextAddr := a + 1
        sigpipe_ignored := true },
      [.sigaction_ignore_sigpipe, .call_new, .box_into_raw a],
      a + L.dsOff)
  | .error _ =>
    ({ st with sigpipe_ignored := true },
      [.sigaction_ignore_sigpipe, .call_new, .panic_logged .create_server_ffi],
      0)

/-- `destroy_server_ffi::<W>`: reclaim the Box via `container_of` +
`Box::from_raw`, then assert the header version is 3; the Box (and with it
the embedded implementation, whose drop is its shutdown hook) is dropped —
and its storage released — on both the normal path and the unwinding path
of a failed assertion, which the surrounding `catch_unwind` then logs. -/
def destroy_server_ffi {σ π τ : Type} (L : Layout) (st : ProcState σ π τ)
    (ptr : Ptr) : ProcState σ π τ × List Event :=
  let a := ptr - L.dsOff
  match lookupAssoc a st.servers with
  | none => (st, [])
  | some h =>
    let st' := { st with servers := removeAssoc a st.servers }
    if h.wlcs_display_server.version = 3 then
      (st', [.box_from_raw a, .drop_box a])
    else
      (st', [.box_from_raw a, .drop_box a, .panic_logged .destroy_server_ffi])

/-- `start_server_ffi::<W>`: recover the handle, assert version 3, dispatch
`wlcs.start()`; any panic (assertion or user code) is caught and logged,
and the call completes with no return value. -/
def start_server_ffi {σ π τ : Type} (W : Wlcs σ π τ) (L : Layout) (st : ProcState σ π τ)
    (ptr : Ptr) : ProcState σ π τ × List Event :=
  let a := ptr - L.dsOff
  match lookupAssoc a st.servers with
  | none => (st, [])
  | some h =>
    if h.wlcs_display_server.version = 3 then
      match W.start h.wlcs with
      | .ok s' =>
        ({ st with servers := updateAssoc a { h with wlcs := s' } st.servers },
          [.call_method .start])
      | .error s' =>
        ({ st with servers := updateAssoc a { h with wlcs := s' } st.servers },
          [.call_method .start, .panic_logged .start_server_ffi])
    else
      (st, [.panic_logged .start_server_ffi])

/-- `stop_server_ffi::<W>`: recover the handle, assert version 3, dispatch
`wlcs.stop()`; panics are caught and logged. -/
def stop_server_ffi {σ π τ : Type} (W : Wlcs σ π τ) (L : Layout) (st : ProcState σ π τ)
    (ptr : Ptr) : ProcState σ π τ × List Event :=
  let a := ptr - L.dsOff
  match lookupAssoc a st.servers with
  | none => (st, [])
  | some h =>
    if h.wlcs_display_server.version = 3 then
      match W.stop h.wlcs with
      | .ok s' =>
        ({ st with servers := updateAssoc a { h with wlcs := s' } st.servers },
          [.call_method .stop])
      | .error s' =>
        ({ st with servers := updateAssoc a { h with wlcs := s' } st.servers },
          [.call_method .stop, .panic_logged .stop_server_ffi])
    else
      (st, [.panic_logged .stop_server_ffi])

/-- `create_client_socket_ffi::<W>`: recover the handle, assert version 3,
dispatch `wlcs.create_client_socket()` and hand the raw file descriptor to
the caller (`into_raw_fd`, full ownership transfer); a caught panic yields
the sentinel -1. -/
def create_client_socket_ffi {σ π τ : Type} (W : Wlcs σ π τ) (L : Layout)
    (st : ProcState σ π τ) (ptr : Ptr) : ProcState σ π τ × List Event × Int :=
  let a := ptr - L.dsOff
  match lookupAssoc a st.servers with
  | none => (st, [], -1)
  | some h =>
    if h.wlcs_display_server.version = 3 then
      match W.create_client_socket h.wlcs with
      | .ok fd => (st, [.call_method .create_client_socket], fd)
      | .error _ =>
        (st, [.call_method .create_client_socket,
              .panic_logged .create_client_socket_ffi], -1)
    else
      (st, [.panic_logged .create_client_socket_ffi], -1)

/-- `position_window_absolute_ffi::<W>`: recover the handle, assert version
3, dispatch `wlcs.position_window_absolute(display, surface, x, y)`; panics
are caught and logged, the call completes as void. -/
def position_window_absolute_ffi {σ π τ : Type} (W : Wlcs σ π τ) (L : Layout)
    (st : ProcState σ π τ) (ptr : Ptr) (display surface : Ptr) (x y : Int) :
    ProcState σ π τ × List Event :=
  let a := ptr - L.dsOff
  match lookupAssoc a st.servers with
  | none => (st, [])
  | some h =>
    if h.wlcs_display_server.version = 3 then
      match W.position_window_absolute h.wlcs display surface x y with
      | .ok _ => (st, [.call_method .position_window_absolute])
      | .error _ =>
        (st, [.call_method .position_window_absolute,
              .panic_logged .position_window_absolute_ffi])
    else
      (st, [.panic_logged .position_window_absolute_ffi])

/-- `create_pointer_ffi::<W>`: recover the handle, assert version 3, call
`wlcs.create_pointer()`; on `None` return null, on `Some(p)` box a fresh
`PointerHandle` and return the address of its `wlcs_pointer` field; a
caught panic yields null. -/
def create_pointer_ffi {σ π τ : Type} (W : Wlcs σ π τ) (L : Layout)
    (st : ProcState σ π τ) (ptr : Ptr) : ProcState σ π τ × List Event × Ptr :=
  let a := ptr - L.dsOff
  match lookupAssoc a st.servers with
  | none => (st, [], 0)
  | some h =>
    if h.wlcs_display_server.version = 3 then
      match W.create_pointer h.wlcs with
      | .ok (s', none) =>
        ({ st with servers := updateAssoc a { h with wlcs := s' } st.servers },
          [.call_method .create_pointer], 0)
      | .ok (s', some p) =>
        let b := st.nextAddr
        ({ st with
            servers := updateAssoc a { h with wlcs := s' } st.servers
            pointers := (b, ⟨wlcs_pointer, p⟩) :: st.pointers
            nextAddr := b + 1 },
          [.call_method .create_pointer, .box_into_raw b],
          b + L.pOff)
      | .error s' =>
        ({ st with servers := updateAssoc a { h with wlcs := s' } st.servers },
          [.call_method .create_pointer, .panic_logged .create_pointer_ffi], 0)
    else
      (st, [.panic_logged .create_pointer_ffi], 0)

/-- `create_touch_ffi::<W>`: as `create_pointer_ffi`, for the touch
capability. -/
def create_touch_ffi {σ π τ : Type} (W : Wlcs σ π τ) (L : Layout)
    (st : ProcState σ π τ) (ptr : Ptr) : ProcState σ π τ × List Event × Ptr :=
  let a := ptr - L.dsOff
  match lookupAssoc a st.servers with
  | none => (st, [], 0)
  | some h =>
    if h.wlcs_display_server.version = 3 then
      match W.create_touch h.wlcs with
      | .ok (s', none) =>
        ({ st with servers := updateAssoc a { h with wlcs := s' } st.servers },
          [.call_method .create_touch], 0)
      | .ok (s', some t) =>
        let b := st.nextAddr
        ({ st with
            servers := updateAssoc a { h with wlcs := s' } st.servers
            touches := (b, ⟨wlcs_touch, t⟩) :: st.touches
            nextAddr := b + 1 },
          [.call_method .create_touch, .box_into_raw b],
          b + L.tOff)
      | .error s' =>
        ({ st with servers := updateAssoc a { h with wlcs := s' } st.servers },
          [.call_method .create_touch, .panic_logged .create_touch_ffi], 0)
    else
      (st, [.panic_logged .create_touch_ffi], 0)

/-- `get_descriptor_ffi::<W>`: recover the handle through the shared
variant and dispatch `wlcs.get_descriptor()` — the source performs no
version assertion here; a caught panic yields null. -/
def get_descriptor_ffi {σ π τ : Type} (W : Wlcs σ π τ) (L : Layout)
    (st : ProcState σ π τ) (ptr : Ptr) : ProcState σ π τ × List Event × Ptr :=
  match get_display_server_handle_ref L st ptr with
  | none => (st, [], 0)
  | some h =>
    match W.get_descriptor h.wlcs with
    | .ok d => (st, [.call_method .get_descriptor], d)
    | .error _ =>
      (st, [.call_method .get_descriptor, .panic_logged .get_descriptor_ffi], 0)

/-- `start_on_this_thread_ffi::<W>`: recover the handle, assert version 3,
dispatch `wlcs.start_on_this_thread(event_loop)`; panics are caught and
logged. -/
def start_on_this_thread_ffi {σ π τ : Type} (W : Wlcs σ π τ) (L : Layout)
    (st : ProcState σ π τ) (ptr : Ptr) (event_loop : Ptr) :
    ProcState σ π τ × List Event :=
  let a := ptr - L.dsOff
  match lookupAssoc a st.servers with
  | none => (st, [])
  | some h =>
    if h.wlcs_display_server.version = 3 then
      match W.start_on_this_thread h.wlcs event_loop with
      | .ok _ => (st, [.call_method .start_on_this_thread])
      | .error _ =>
        (st, [.call_method .start_on_this_thread,
              .panic_logged .start_on_this_thread_ffi])
    else
      (st, [.panic_logged .start_on_this_thread_ffi])

/-- `pointer_move_absolute_ffi::<W>`: recover the `PointerHandle` (no
version assertion in the source) and dispatch `p.move_absolute(x, y)`;
panics are caught and logged. -/
def pointer_move_absolute_ffi {σ π τ : Type} (P : Pointer π) (L : Layout)
    (st : ProcState σ π τ) (ptr : Ptr) (x y : Int) : ProcState σ π τ × List Event :=
  let a := ptr - L.pOff
  match lookupAssoc a st.pointers with
  | none => (st, [])
  | some h =>
    match P.move_absolute h.p x y with
    | .ok p' =>
      ({ st with pointers := updateAssoc a { h with p := p' } st.pointers },
        [.call_method .move_absolute])
    | .error p' =>
      ({ st with pointers := updateAssoc a { h with p := p' } st.pointers },
        [.call_method .move_absolute, .panic_logged .pointer_move_absolute_ffi])

/-- `pointer_move_relative_ffi::<W>`: as `pointer_move_absolute_ffi` for
`p.move_relative(dx, dy)`. -/
def pointer_move_relative_ffi {σ π τ : Type} (P : Pointer π) (L : Layout)
    (st : ProcState σ π τ) (ptr : Ptr) (dx dy : Int) : ProcState σ π τ × List Event :=
  let a := ptr - L.pOff
  match lookupAssoc a st.pointers with
  | none => (st, [])
  | some h =>
    match P.move_relative h.p dx dy with
    | .ok p' =>
      ({ st with pointers := updateAssoc a { h with p := p' } st.pointers },
        [.call_method .move_relative])
    | .error p' =>
      ({ st with pointers := updateAssoc a { h with p := p' } st.pointers },
        [.call_method .move_relative, .panic_logged .pointer_move_relative_ffi])

/-- `pointer_button_up_ffi::<W>`: dispatch `p.button_up(button)`. -/
def pointer_button_up_ffi {σ π τ : Type} (P : Pointer π) (L : Layout)
    (st : ProcState σ π τ) (ptr : Ptr) (button : Int) : ProcState σ π τ × List Event :=
  let a := ptr - L.pOff
  match lookupAssoc a st.pointers with
  | none => (st, [])
  | some h =>
    match P.button_up h.p button with
    | .ok p' =>
      ({ st with pointers := updateAssoc a { h with p := p' } st.pointers },
        [.call_method .button_up])
    | .error p' =>
      ({ st with pointers := updateAssoc a { h with p := p' } st.pointers },
        [.call_method .button_up, .panic_logged .pointer_button_up_ffi])

/-- `pointer_button_down_ffi::<W>`: dispatch `p.button_down(button)`. -/
def pointer_button_down_ffi {σ π τ : Type} (P : Pointer π) (L : Layout)
    (st : ProcState σ π τ) (ptr : Ptr) (button : Int) : ProcState σ π τ × List Event :=
  let a := ptr - L.pOff
  match lookupAssoc a st.pointers with
  | none => (st, [])
  | some h =>
    match P.button_down h.p button with
    | .ok p' =>
      ({ st with pointers := updateAssoc a { h with p := p' } st.pointers },
        [.call_method .button_down])
    | .error p' =>
      ({ st with pointers := updateAssoc a { h with p := p' } st.pointers },
        [.call_method .button_down, .panic_logged .pointer_button_down_ffi])

/-- `pointer_destroy_ffi::<W>`: reclaim the Box (`Box::from_raw`) first,
then dispatch `p.destroy()`; whether the hook returns or panics, the Box is
dropped — releasing the handle storage — before the trampoline returns
(on the panic path during unwinding, after which the panic is logged). -/
def pointer_destroy_ffi {σ π τ : Type} (P : Pointer π) (L : Layout)
    (st : ProcState σ π τ) (ptr : Ptr) : ProcState σ π τ × List Event :=
  let a := ptr - L.pOff
  match lookupAssoc a st.pointers with
  | none => (st, [])
  | some h =>
    let st' := { st with pointers := removeAssoc a st.pointers }
    match P.destroy h.p with
    | .ok _ => (st', [.box_from_raw a, .call_method .destroy, .drop_box a])
    | .error _ =>
      (st', [.box_from_raw a, .call_method .destroy, .drop_box a,
             .panic_logged .pointer_destroy_ffi])

/-- `touch_down_ffi::<W>`: recover the `TouchHandle` (no version assertion
in the source) and dispatch `t.touch_down(x, y)`. -/
def touch_down_ffi {σ π τ : Type} (T : Touch τ) (L : Layout)
    (st : ProcState σ π τ) (ptr : Ptr) (x y : Int) : ProcState σ π τ × List Event :=
  let a := ptr - L.tOff
  match lookupAssoc a st.touches with
  | none => (st, [])
  | some h =>
    match T.touch_down h.t x y with
    | .ok t' =>
      ({ st with touches := updateAssoc a { h with t := t' } st.touches },
        [.call_method .touch_down])
    | .error t' =>
      ({ st with touches := updateAssoc a { h with t := t' } st.touches },
        [.call_method .touch_down, .panic_logged .touch_down_ffi])

/-- `touch_move_ffi::<W>`: dispatch `t.touch_move(x, y)`. -/
def touch_move_ffi {σ π τ : Type} (T : Touch τ) (L : Layout)
    (st : ProcState σ π τ) (ptr : Ptr) (x y : Int) : ProcState σ π τ × List Event :=
  let a := ptr - L.tOff
  match lookupAssoc a st.touches with
  | none => (st, [])
  | some h =>
    match T.touch_move h.t x y with
    | .ok t' =>
      ({ st with touches := updateAssoc a { h with t := t' } st.touches },
        [.call_method .touch_move])
    | .error t' =>
      ({ st with touches := updateAssoc a { h with t := t' } st.touches },
        [.call_method .touch_move, .panic_logged .touch_move_ffi])

/-- `touch_up_ffi::<W>`: dispatch `t.touch_up()`. -/
def touch_up_ffi {σ π τ : Type} (T : Touch τ) (L : Layout)
    (st : ProcState σ π τ) (ptr : Ptr) : ProcState σ π τ × List Event :=
  let a := ptr - L.tOff
  match lookupAssoc a st.touches with
  | none => (st, [])
  | some h =>
    match T.touch_up h.t with
    | .ok t' =>
      ({ st with touches := updateAssoc a { h with t := t' } st.touches },
        [.call_method .touch_up])
    | .error t' =>
      ({ st with touches := updateAssoc a { h with t := t' } st.touches },
        [.call_method .touch_up, .panic_logged .touch_up_ffi])

/-- `touch_destroy_ffi::<W>`: reclaim the Box first, then dispatch
`t.destroy()`; as for `pointer_destroy_ffi`, the Box is dropped on both
the normal and the unwinding path. -/
def touch_destroy_ffi {σ π τ : Type} (T : Touch τ) (L : Layout)
    (st : ProcState σ π τ) (ptr : Ptr) : ProcState σ π τ × List Event :=
  let a := ptr - L.tOff
  match lookupAssoc a st.touches with
  | none => (st, [])
  | some h =>
    let st' := { st with touches := removeAssoc a st.touches }
    match T.destroy h.t with
    | .ok _ => (st', [.box_from_raw a, .call_method .destroy, .drop_box a])
    | .error _ =>
      (st', [.box_from_raw a, .call_method .destroy, .drop_box a,
             .panic_logged .touch_destroy_ffi])

/-- A concrete, well-behaved implementation over `Int` states, used for
concrete evaluation of the trampolines. -/
def testWlcs : Wlcs Int Int Int where
  new := .ok 0
  start := fun s => .ok (s + 1)
  stop := fun s => .ok (s - 1)
  create_client_socket := fun _ => .ok 5
  position_window_absolute := fun _ _ _ _ _ => .ok ()
  create_pointer := fun s => .ok (s, some 7)
  create_touch := fun s => .ok (s, some 9)
  get_descriptor := fun _ => .ok 42
  start_on_this_thread := fun _ _ => .ok ()

/-- A concrete implementation whose every method panics. -/
def panicWlcs : Wlcs Int Int Int where
  new := .error ()
  start := fun s => .error s
  stop := fun s => .error s
  create_client_socket := fun _ => .error ()
  position_window_absolute := fun _ _ _ _ _ => .error ()
  create_pointer := fun s => .error s
  create_touch := fun s => .error s
  get_descriptor := fun _ => .error ()
  start_on_this_thread := fun _ _ => .error ()

/-- A concrete, well-behaved pointer implementation. -/
def testPointerImpl : Pointer Int where
  move_absolute := fun p x y => .ok (p + x + y)
  move_relative := fun p dx dy => .ok (p + dx - dy)
  button_up := fun p b => .ok (p + b)
  button_down := fun p b => .ok (p - b)
  destroy := fun p => .ok p

/-- A concrete pointer implementation whose every method panics. -/
def panicPointerImpl : Pointer Int where
  move_absolute := fun p _ _ => .error p
  move_relative := fun p _ _ => .error p
  button_up := fun p _ => .error p
  button_down := fun p _ => .error p
  destroy := fun p => .error p

/-- A concrete, well-behaved touch implementation. -/
def testTouchImpl : Touch Int where
  touch_down := fun t x y => .ok (t + x + y)
  touch_move := fun t x y => .ok (t + x - y)
  touch_up := fun t => .ok (t + 1)
  destroy := fun t => .ok t

/-- A concrete touch implementation whose every method panics. -/
def panicTouchImpl : Touch Int where
  touch_down := fun t _ _ => .error t
  touch_move := fun t _ _ => .error t
  touch_up := fun t => .error t
  destroy := fun t => .error t

/-- A concrete layout: header-field offsets of 8 bytes in each handle. -/
def L0 : Layout := ⟨8, 8, 8⟩

/-- An instance-table header whose version tag was corrupted to 2. -/
def badDs : WlcsDisplayServer := { wlcs_display_server with version := 2 }

/-- A pointer-table header whose version tag was corrupted to 0. -/
def badP : WlcsPointer := { wlcs_pointer with version := 0 }

/-- A touch-table header whose version tag was corrupted to 0. -/
def badT : WlcsTouch := { wlcs_touch with version := 0 }

/-- A process state with one live handle of each kind, all headers as
built by the construction trampolines. -/
def stGood : ProcState Int Int Int where
  servers := [(10, ⟨wlcs_display_server, 0⟩)]
  pointers := [(20, ⟨wlcs_pointer, 7⟩)]
  touches := [(30, ⟨wlcs_touch, 9⟩)]
  nextAddr := 100
  sigpipe_ignored := true

/-- A process state whose handle headers carry mismatched version tags. -/
def stBad : ProcState Int Int Int where
  servers := [(10, ⟨badDs, 0⟩)]
  pointers := [(20, ⟨badP, 7⟩)]
  touches := [(30, ⟨badT, 9⟩)]
  nextAddr := 100
  sigpipe_ignored := true

theorem lookupAssoc_updateAssoc_self {α : Type} {a : Ptr} {v w : α}
    {l : List (Ptr × α)} (h : lookupAssoc a l = some w) :
    lookupAssoc a (updateAssoc a v l) = some v := by
  induction l with
  | nil => simp [lookupAssoc] at h
  | cons kv rest ih =>
    obtain ⟨k, u⟩ := kv
    by_cases hk : k = a
    · simp [lookupAssoc, updateAssoc, hk]
    · simp only [lookupAssoc, updateAssoc, if_neg hk] at h ⊢
      exact ih h

theorem lookupAssoc_updateAssoc_ne {α : Type} {a : Ptr} {v : α}
    {l : List (Ptr × α)} {b : Ptr} (h : b ≠ a) :
    lookupAssoc b (updateAssoc a v l) = lookupAssoc b l := by
  induction l with
  | nil => simp [lookupAssoc, updateAssoc]
  | cons kv rest ih =>
    obtain ⟨k, u⟩ := kv
    by_cases hk : k = a
    · subst hk
      simp [lookupAssoc, updateAssoc, if_neg (Ne.symm h)]
    · simp only [lookupAssoc, updateAssoc, if_neg hk]
      by_cases hb : k = b <;> simp [hb, ih]

theorem lookupAssoc_removeAssoc_ne {α : Type} {a : Ptr}
    {l : List (Ptr × α)} {b : Ptr} (h : b ≠ a) :
    lookupAssoc b (removeAssoc a l) = lookupAssoc b l := by
  induction l with
  | nil => simp [lookupAssoc, removeAssoc]
  | cons kv rest ih =>
    obtain ⟨k, u⟩ := kv
    by_cases hk : k = a
    · subst hk
      simp [lookupAssoc, removeAssoc, if_neg (Ne.symm h)]
    · simp only [lookupAssoc, removeAssoc, if_neg hk]
      by_cases hb : k = b <;> simp [hb, ih]

/-- Claim C8: the statically built operation tables have exactly the
specified shapes — the factory table has version 1 with the create-server
and destroy-server slots; the instance table has version 3 with the eight
slots start, stop, create_client_socket, position_window_absolute,
create_pointer, create_touch, get_descriptor, start_on_this_thread; the
pointer table has version 1 with move_absolute, move_relative, button_up,
button_down, destroy; the touch table has version 1 with touch_down,
touch_move, touch_up, destroy; and every slot is populated (`some`, never
null). -/
theorem C8_table_shapes :
    wlcs_server.version = 1 ∧
    wlcs_server.create_server = some .create_server_ffi ∧
    wlcs_server.destroy_server = some .destroy_server_ffi ∧
    wlcs_display_server.version = 3 ∧
    wlcs_display_server.start = some .start_server_ffi ∧
    wlcs_display_server.stop = some .stop_server_ffi ∧
    wlcs_display_server.create_client_socket = some .create_client_socket_ffi ∧
    wlcs_display_server.position_window_absolute = some .position_window_absolute_ffi ∧
    wlcs_display_server.create_pointer = some .create_pointer_ffi ∧
    wlcs_display_server.create_touch = some .create_touch_ffi ∧
    wlcs_display_server.get_descriptor = some .get_descriptor_ffi ∧
    wlcs_display_server.start_on_this_thread = some .start_on_this_thread_ffi ∧
    wlcs_pointer.version = 1 ∧
    wlcs_pointer.move_absolute = some .pointer_move_absolute_ffi ∧
    wlcs_pointer.move_relative = some .pointer_move_relative_ffi ∧
    wlcs_pointer.button_up = some .pointer_button_up_ffi ∧
    wlcs_pointer.button_down = some .pointer_button_down_ffi ∧
    wlcs_pointer.destroy = some .pointer_destroy_ffi ∧
    wlcs_touch.version = 1 ∧
    wlcs_touch.touch_down = some .touch_down_ffi ∧
    wlcs_touch.touch_move = some .touch_move_ffi ∧
    wlcs_touch.touch_up = some .touch_up_ffi ∧
    wlcs_touch.destroy = some .touch_destroy_ffi := by
  decide

/-- Claim C4: constructing a Handle that embeds `v` (as `create_server_ffi`
does via `Box::into_raw` and the address of the header field) and then
recovering the Handle from the returned header pointer
(`get_display_server_handle_mut`, the container-of offset subtraction)
yields the same Handle, whose embedded implementation object is `v`. -/
theorem C4_construct_recover_roundtrip {σ π τ : Type} (W : Wlcs σ π τ) (L : Layout)
    (st : ProcState σ π τ) (v : σ) (argc : Int) (argv : Ptr)
    (hnew : W.new = .ok v) :
    get_display_server_handle_mut L (create_server_ffi W L st argc argv).1
        (create_server_ffi W L st argc argv).2.2 =
      some ⟨wlcs_display_server, v⟩ := by
  simp [create_server_ffi, hnew, get_display_server_handle_mut, lookupAssoc,
    Nat.add_sub_cancel]

theorem C4_construct_recover_roundtrip_witness :
    get_display_server_handle_mut L0 (create_server_ffi testWlcs L0 stGood 0 0).1
        (create_server_ffi testWlcs L0 stGood 0 0).2.2 =
      some ⟨wlcs_display_server, 0⟩ :=
  C4_construct_recover_roundtrip testWlcs L0 stGood 0 0 0 rfl

/-- Claim C7: on a successful call, `create_server_ffi` performs its steps
in this order — it first installs the ignore disposition for SIGPIPE, then
invokes the implementation's zero-argument factory `W::new()`, then boxes
the resulting value into a fresh Handle — and it returns the address of the
Handle's embedded header field (base address plus header offset). -/
theorem C7_create_server_order {σ π τ : Type} (W : Wlcs σ π τ) (L : Layout)
    (st : ProcState σ π τ) (v : σ) (argc : Int) (argv : Ptr)
    (hnew : W.new = .ok v) :
    create_server_ffi W L st argc argv =
      ({ st with
          servers := (st.nextAddr, ⟨wlcs_display_server, v⟩) :: st.servers
          nextAddr := st.nextAddr + 1
          sigpipe_ignored := true },
        [.sigaction_ignore_sigpipe, .call_new, .box_into_raw st.nextAddr],
        st.nextAddr + L.dsOff) := by
  simp [create_server_ffi, hnew]

theorem C7_create_server_order_witness :
    create_server_ffi testWlcs L0 stGood 0 0 =
      ({ stGood with
          servers := (100, ⟨wlcs_display_server, 0⟩) :: stGood.servers
          nextAddr := 101
          sigpipe_ignored := true },
        [.sigaction_ignore_sigpipe, .call_new, .box_into_raw 100],
        108) :=
  C7_create_server_order testWlcs L0 stGood 0 0 0 rfl

/-- Claim C6: each destruction trampoline, given a live header pointer
produced by the matching construction trampoline, reclaims full ownership
of the Handle (`Box::from_raw`; the entry leaves the live heap), runs the
implementation's shutdown hook (the `destroy` method for pointer/touch
handles; for `destroy_server_ffi` the embedded implementation's drop, run
when the Box is dropped), and releases the Handle's storage, dropping the
embedded implementation object (the `drop_box` event). -/
theorem C6_destroy_reclaims_and_releases {σ π τ : Type} (P : Pointer π) (T : Touch τ)
    (L : Layout) (st : ProcState σ π τ) :
    (∀ ptr h, lookupAssoc (ptr - L.dsOff) st.servers = some h →
      h.wlcs_display_server.version = 3 →
      destroy_server_ffi L st ptr =
        ({ st with servers := removeAssoc (ptr - L.dsOff) st.servers },
          [.box_from_raw (ptr - L.dsOff), .drop_box (ptr - L.dsOff)])) ∧
    (∀ ptr h p', lookupAssoc (ptr - L.pOff) st.pointers = some h →
      P.destroy h.p = .ok p' →
      pointer_destroy_ffi P L st ptr =
        ({ st with pointers := removeAssoc (ptr - L.pOff) st.pointers },
          [.box_from_raw (ptr - L.pOff), .call_method .destroy,
           .drop_box (ptr - L.pOff)])) ∧
    (∀ ptr h t', lookupAssoc (ptr - L.tOff) st.touches = some h →
      T.destroy h.t = .ok t' →
      touch_destroy_ffi T L st ptr =
        ({ st with touches := removeAssoc (ptr - L.tOff) st.touches },
          [.box_from_raw (ptr - L.tOff), .call_method .destroy,
           .drop_box (ptr - L.tOff)])) := by
  refine ⟨?_, ?_, ?_⟩
  · intro ptr h hlook hver
    simp [destroy_server_ffi, hlook, hver]
  · intro ptr h p' hlook hd
    simp [pointer_destroy_ffi, hlook, hd]
  · intro ptr h t' hlook hd
    simp [touch_destroy_ffi, hlook, hd]

theorem C6_destroy_reclaims_and_releases_witness :
    destroy_server_ffi L0 stGood 18 =
      ({ stGood with servers := removeAssoc 10 stGood.servers },
        [.box_from_raw 10, .drop_box 10]) ∧
    pointer_destroy_ffi testPointerImpl L0 stGood 28 =
      ({ stGood with pointers := removeAssoc 20 stGood.pointers },
        [.box_from_raw 20, .call_method .destroy, .drop_box 20]) ∧
    touch_destroy_ffi testTouchImpl L0 stGood 38 =
      ({ stGood with touches := removeAssoc 30 stGood.touches },
        [.box_from_raw 30, .call_method .destroy, .drop_box 30]) := by
  have hc := C6_destroy_reclaims_and_releases (σ := Int)
    testPointerImpl testTouchImpl L0 stGood
  exact ⟨hc.1 18 ⟨wlcs_display_server, 0⟩ rfl rfl,
         hc.2.1 28 ⟨wlcs_pointer, 7⟩ 7 rfl rfl,
         hc.2.2 38 ⟨wlcs_touch, 9⟩ 9 rfl rfl⟩

/-- Claim C9: the Handle's storage is released even when a fault occurs
during the destruction call — `pointer_destroy_ffi` and `touch_destroy_ffi`
reclaim the Box (`box_from_raw`) before invoking the implementation's
destroy hook, so a panic in the hook still drops and frees the Handle
during unwinding (`drop_box` precedes the logged panic); and
`destroy_server_ffi` reclaims the Box before its version assertion, so the
implementation object is dropped and its storage freed even when the
version tag is not 3. -/
theorem C9_destroy_releases_on_fault {σ π τ : Type} (P : Pointer π) (T : Touch τ)
    (L : Layout) (st : ProcState σ π τ) :
    (∀ ptr h p', lookupAssoc (ptr - L.pOff) st.pointers = some h →
      P.destroy h.p = .error p' →
      pointer_destroy_ffi P L st ptr =
        ({ st with pointers := removeAssoc (ptr - L.pOff) st.pointers },
          [.box_from_raw (ptr - L.pOff), .call_method .destroy,
           .drop_box (ptr - L.pOff), .panic_logged .pointer_destroy_ffi])) ∧
    (∀ ptr h t', lookupAssoc (ptr - L.tOff) st.touches = some h →
      T.destroy h.t = .error t' →
      touch_destroy_ffi T L st ptr =
        ({ st with touches := removeAssoc (ptr - L.tOff) st.touches },
          [.box_from_raw (ptr - L.tOff), .call_method .destroy,
           .drop_box (ptr - L.tOff), .panic_logged .touch_destroy_ffi])) ∧
    (∀ ptr h, lookupAssoc (ptr - L.dsOff) st.servers = some h →
      h.wlcs_display_server.version ≠ 3 →
      destroy_server_ffi L st ptr =
        ({ st with servers := removeAssoc (ptr - L.dsOff) st.servers },
          [.box_from_raw (ptr - L.dsOff), .drop_box (ptr - L.dsOff),
           .panic_logged .destroy_server_ffi])) := by
  refine ⟨?_, ?_, ?_⟩
  · intro ptr h p' hlook hd
    simp [pointer_destroy_ffi, hlook, hd]
  · intro ptr h t' hlook hd
    simp [touch_destroy_ffi, hlook, hd]
  · intro ptr h hlook hver
    simp [destroy_server_ffi, hlook, hver]

theorem C9_destroy_releases_on_fault_witness :
    pointer_destroy_ffi panicPointerImpl L0 stGood 28 =
      ({ stGood with pointers := removeAssoc 20 stGood.pointers },
        [.box_from_raw 20, .call_method .destroy, .drop_box 20,
         .panic_logged .pointer_destroy_ffi]) ∧
    touch_destroy_ffi panicTouchImpl L0 stGood 38 =
      ({ stGood with touches := removeAssoc 30 stGood.touches },
        [.box_from_raw 30, .call_method .destroy, .drop_box 30,
         .panic_logged .touch_destroy_ffi]) ∧
    destroy_server_ffi L0 stBad 18 =
      ({ stBad with servers := removeAssoc 10 stBad.servers },
        [.box_from_raw 10, .drop_box 10, .panic_logged .destroy_server_ffi]) := by
  have hc := C9_destroy_releases_on_fault (σ := Int)
    panicPointerImpl panicTouchImpl L0 stGood
  have hb := C9_destroy_releases_on_fault (σ := Int)
    panicPointerImpl panicTouchImpl L0 stBad
  exact ⟨hc.1 28 ⟨wlcs_pointer, 7⟩ 7 rfl rfl,
         hc.2.1 38 ⟨wlcs_touch, 9⟩ 9 rfl rfl,
         hb.2.2 18 ⟨badDs, 0⟩ rfl (by decide)⟩

/-- Claim C5: `create_pointer_ffi` (respectively `create_touch_ffi`), on a
live version-3 handle whose factory returns normally, returns the null
pointer exactly when the factory returns `none`; otherwise it returns a
non-null header pointer from which the enclosing handle containing the
factory's value is recoverable via the container-of recovery
(`get_pointer_handle` / `get_touch_handle`). -/
theorem C5_create_capability_null_iff_none {σ π τ : Type} (W : Wlcs σ π τ) (L : Layout)
    (st : ProcState σ π τ) (ptr : Ptr) (h : DisplayServerHandle σ)
    (hlook : lookupAssoc (ptr - L.dsOff) st.servers = some h)
    (hver : h.wlcs_display_server.version = 3)
    (hnz : 0 < st.nextAddr) :
    (∀ s' r, W.create_pointer h.wlcs = .ok (s', r) →
      ((create_pointer_ffi W L st ptr).2.2 = 0 ↔ r = none) ∧
      ∀ p, r = some p →
        get_pointer_handle L (create_pointer_ffi W L st ptr).1
            (create_pointer_ffi W L st ptr).2.2 =
          some ⟨wlcs_pointer, p⟩) ∧
    (∀ s' r, W.create_touch h.wlcs = .ok (s', r) →
      ((create_touch_ffi W L st ptr).2.2 = 0 ↔ r = none) ∧
      ∀ t, r = some t →
        get_touch_handle L (create_touch_ffi W L st ptr).1
            (create_touch_ffi W L st ptr).2.2 =
          some ⟨wlcs_touch, t⟩) := by
  constructor
  · intro s' r hcp
    cases r with
    | none =>
      refine ⟨by simp [create_pointer_ffi, hlook, hver, hcp], ?_⟩
      intro p hp
      exact absurd hp (by simp)
    | some p =>
      have hret : (create_pointer_ffi W L st ptr).2.2 = st.nextAddr + L.pOff := by
        simp [create_pointer_ffi, hlook, hver, hcp]
      constructor
      · rw [hret]
        constructor
        · intro h0
          exact absurd (Nat.eq_zero_of_add_eq_zero_right h0) (Nat.pos_iff_ne_zero.mp hnz)
        · intro hco
          exact absurd hco (by simp)
      · intro q hq
        obtain rfl : p = q := by injection hq
        simp [create_pointer_ffi, hlook, hver, hcp, get_pointer_handle,
          lookupAssoc, Nat.add_sub_cancel]
  · intro s' r hct
    cases r with
    | none =>
      refine ⟨by simp [create_touch_ffi, hlook, hver, hct], ?_⟩
      intro t ht
      exact absurd ht (by simp)
    | some t =>
      have hret : (create_touch_ffi W L st ptr).2.2 = st.nextAddr + L.tOff := by
        simp [create_touch_ffi, hlook, hver, hct]
      constructor
      · rw [hret]
        constructor
        · intro h0
          exact absurd (Nat.eq_zero_of_add_eq_zero_right h0) (Nat.pos_iff_ne_zero.mp hnz)
        · intro hco
          exact absurd hco (by simp)
      · intro q hq
        obtain rfl : t = q := by injection hq
        simp [create_touch_ffi, hlook, hver, hct, get_touch_handle,
          lookupAssoc, Nat.add_sub_cancel]

theorem C5_create_capability_null_iff_none_witness :
    ((create_pointer_ffi testWlcs L0 stGood 18).2.2 = 0 ↔
      (some (7 : Int) : Option Int) = none) ∧
    get_pointer_handle L0 (create_pointer_ffi testWlcs L0 stGood 18).1
        (create_pointer_ffi testWlcs L0 stGood 18).2.2 =
      some ⟨wlcs_pointer, 7⟩ := by
  have hc := C5_create_capability_null_iff_none testWlcs L0 stGood 18
    ⟨wlcs_display_server, 0⟩ rfl rfl (by decide)
  have h1 := hc.1 0 (some 7) rfl
  exact ⟨h1.1, h1.2 7 rfl⟩

/-- Claim C2 counterexample: with a live handle whose header version tag is
2 (not 3), `start_server_ffi` does NOT escalate the version-mismatch
assertion failure as an unrecoverable error — the assertion panic is raised
inside the trampoline's own catch_unwind barrier, which catches it: the
call completes normally as the void sentinel no-op, with the panic merely
logged and the process state unchanged. This refutes the claim that the
assertion failure propagates unrecovered rather than being converted to
the sentinel result. -/
theorem C2_counterexample :
    start_server_ffi testWlcs L0 stBad 18 =
      (stBad, [.panic_logged .start_server_ffi]) := by
  decide

/-- Claim C2 (amended): when the header version tag of the instance table is
not 3, any version-checking instance trampoline raises the assertion
failure, but the failure is caught by the trampoline's own fault barrier on
the same call path: the call is converted to the signature's sentinel
result (no-op, -1 or null) with a panic diagnostic logged, the
implementation method is never invoked, and the process state is left
unchanged; the failure does not propagate to the foreign caller. -/
theorem C2_version_mismatch_contained {σ π τ : Type} (W : Wlcs σ π τ) (L : Layout)
    (st : ProcState σ π τ) (ptr : Ptr) (h : DisplayServerHandle σ)
    (hlook : lookupAssoc (ptr - L.dsOff) st.servers = some h)
    (hver : h.wlcs_display_server.version ≠ 3) :
    start_server_ffi W L st ptr = (st, [.panic_logged .start_server_ffi]) ∧
    stop_server_ffi W L st ptr = (st, [.panic_logged .stop_server_ffi]) ∧
    create_client_socket_ffi W L st ptr =
      (st, [.panic_logged .create_client_socket_ffi], -1) ∧
    (∀ display surface x y,
      position_window_absolute_ffi W L st ptr display surface x y =
        (st, [.panic_logged .position_window_absolute_ffi])) ∧
    create_pointer_ffi W L st ptr = (st, [.panic_logged .create_pointer_ffi], 0) ∧
    create_touch_ffi W L st ptr = (st, [.panic_logged .create_touch_ffi], 0) ∧
    (∀ event_loop, start_on_this_thread_ffi W L st ptr event_loop =
      (st, [.panic_logged .start_on_this_thread_ffi])) := by
  refine ⟨?_, ?_, ?_, ?_, ?_, ?_, ?_⟩
  · simp [start_server_ffi, hlook, hver]
  · simp [stop_server_ffi, hlook, hver]
  · simp [create_client_socket_ffi, hlook, hver]
  · intro display surface x y
    simp [position_window_absolute_ffi, hlook, hver]
  · simp [create_pointer_ffi, hlook, hver]
  · simp [create_touch_ffi, hlook, hver]
  · intro event_loop
    simp [start_on_this_thread_ffi, hlook, hver]

theorem C2_version_mismatch_contained_witness :
    stop_server_ffi testWlcs L0 stBad 18 =
      (stBad, [.panic_logged .stop_server_ffi]) ∧
    create_client_socket_ffi testWlcs L0 stBad 18 =
      (stBad, [.panic_logged .create_client_socket_ffi], -1) := by
  have hc := C2_version_mismatch_contained testWlcs L0 stBad 18
    ⟨badDs, 0⟩ rfl (by decide)
  exact ⟨hc.2.1, hc.2.2.1⟩

/-- Claim C3 counterexample: `get_descriptor_ffi` performs no version
assertion — with a version-2 instance header it still dispatches to the
implementation and returns its descriptor pointer — and
`pointer_move_absolute_ffi` performs no version assertion either — with a
version-0 pointer header it still dispatches `move_absolute`, mutating the
pointer state. This refutes the claim that every trampoline asserts the
header's version tag before dispatching. -/
theorem C3_counterexample :
    get_descriptor_ffi testWlcs L0 stBad 18 =
      (stBad, [.call_method .get_descriptor], 42) ∧
    pointer_move_absolute_ffi testPointerImpl L0 stBad 28 2 3 =
      ({ stBad with pointers := [(20, ⟨badP, 12⟩)] },
        [.call_method .move_absolute]) := by
  constructor
  · decide
  · decide

/-- Claim C3 (amended): the instance-table trampolines other than
`get_descriptor_ffi` (start, stop, create_client_socket,
position_window_absolute, create_pointer, create_touch,
start_on_this_thread) assert that the header's version tag equals 3 before
dispatching to the user implementation — on a mismatch the method is never
invoked and the call yields only the logged assertion panic — while
`get_descriptor_ffi` and every pointer-table and touch-table trampoline
perform no version assertion at all and dispatch to the implementation
regardless of the header's version tag. -/
theorem C3_version_assertions {σ π τ : Type} (W : Wlcs σ π τ) (P : Pointer π)
    (T : Touch τ) (L : Layout) (st : ProcState σ π τ) (ptr : Ptr) :
    (∀ h, lookupAssoc (ptr - L.dsOff) st.servers = some h →
      h.wlcs_display_server.version ≠ 3 →
      start_server_ffi W L st ptr = (st, [.panic_logged .start_server_ffi]) ∧
      stop_server_ffi W L st ptr = (st, [.panic_logged .stop_server_ffi]) ∧
      create_client_socket_ffi W L st ptr =
        (st, [.panic_logged .create_client_socket_ffi], -1) ∧
      (∀ display surface x y,
        position_window_absolute_ffi W L st ptr display surface x y =
          (st, [.panic_logged .position_window_absolute_ffi])) ∧
      create_pointer_ffi W L st ptr = (st, [.panic_logged .create_pointer_ffi], 0) ∧
      create_touch_ffi W L st ptr = (st, [.panic_logged .create_touch_ffi], 0) ∧
      (∀ event_loop, start_on_this_thread_ffi W L st ptr event_loop =
        (st, [.panic_logged .start_on_this_thread_ffi]))) ∧
    (∀ h d, lookupAssoc (ptr - L.dsOff) st.servers = some h →
      W.get_descriptor h.wlcs = .ok d →
      get_descriptor_ffi W L st ptr = (st, [.call_method .get_descriptor], d)) ∧
    (∀ h x y p', lookupAssoc (ptr - L.pOff) st.pointers = some h →
      P.move_absolute h.p x y = .ok p' →
      pointer_move_absolute_ffi P L st ptr x y =
        ({ st with pointers := updateAssoc (ptr - L.pOff) { h with p := p' } st.pointers },
          [.call_method .move_absolute])) ∧
    (∀ h dx dy p', lookupAssoc (ptr - L.pOff) st.pointers = some h →
      P.move_relative h.p dx dy = .ok p' →
      pointer_move_relative_ffi P L st ptr dx dy =
        ({ st with pointers := updateAssoc (ptr - L.pOff) { h with p := p' } st.pointers },
          [.call_method .move_relative])) ∧
    (∀ h b p', lookupAssoc (ptr - L.pOff) st.pointers = some h →
      P.button_up h.p b = .ok p' →
      pointer_button_up_ffi P L st ptr b =
        ({ st with pointers := updateAssoc (ptr - L.pOff) { h with p := p' } st.pointers },
          [.call_method .button_up])) ∧
    (∀ h b p', lookupAssoc (ptr - L.pOff) st.pointers = some h →
      P.button_down h.p b = .ok p' →
      pointer_button_down_ffi P L st ptr b =
        ({ st with pointers := updateAssoc (ptr - L.pOff) { h with p := p' } st.pointers },
          [.call_method .button_down])) ∧
    (∀ h p', lookupAssoc (ptr - L.pOff) st.pointers = some h →
      P.destroy h.p = .ok p' →
      pointer_destroy_ffi P L st ptr =
        ({ st with pointers := removeAssoc (ptr - L.pOff) st.pointers },
          [.box_from_raw (ptr - L.pOff), .call_method .destroy,
           .drop_box (ptr - L.pOff)])) ∧
    (∀ h x y t', lookupAssoc (ptr - L.tOff) st.touches = some h →
      T.touch_down h.t x y = .ok t' →
      touch_down_ffi T L st ptr x y =
        ({ st with touches := updateAssoc (ptr - L.tOff) { h with t := t' } st.touches },
          [.call_method .touch_down])) ∧
    (∀ h x y t', lookupAssoc (ptr - L.tOff) st.touches = some h →
      T.touch_move h.t x y = .ok t' →
      touch_move_ffi T L st ptr x y =
        ({ st with touches := updateAssoc (ptr - L.tOff) { h with t := t' } st.touches },
          [.call_method .touch_move])) ∧
    (∀ h t', lookupAssoc (ptr - L.tOff) st.touches = some h →
      T.touch_up h.t = .ok t' →
      touch_up_ffi T L st ptr =
        ({ st with touches := updateAssoc (ptr - L.tOff) { h with t := t' } st.touches },
          [.call_method .touch_up])) ∧
    (∀ h t', lookupAssoc (ptr - L.tOff) st.touches = some h →
      T.destroy h.t = .ok t' →
      touch_destroy_ffi T L st ptr =
        ({ st with touches := removeAssoc (ptr - L.tOff) st.touches },
          [.box_from_raw (ptr - L.tOff), .call_method .destroy,
           .drop_box (ptr - L.tOff)])) := by
  refine ⟨?_, ?_, ?_, ?_, ?_, ?_, ?_, ?_, ?_, ?_, ?_⟩
  · intro h hlook hver
    refine ⟨?_, ?_, ?_, ?_, ?_, ?_, ?_⟩
    · simp [start_server_ffi, hlook, hver]
    · simp [stop_server_ffi, hlook, hver]
    · simp [create_client_socket_ffi, hlook, hver]
    · intro display surface x y
      simp [position_window_absolute_ffi, hlook, hver]
    · simp [create_pointer_ffi, hlook, hver]
    · simp [create_touch_ffi, hlook, hver]
    · intro event_loop
      simp [start_on_this_thread_ffi, hlook, hver]
  · intro h d hlook hm
    simp [get_descriptor_ffi, get_display_server_handle_ref, hlook, hm]
  · intro h x y p' hlook hm
    simp [pointer_move_absolute_ffi, hlook, hm]
  · intro h dx dy p' hlook hm
    simp [pointer_move_relative_ffi, hlook, hm]
  · intro h b p' hlook hm
    simp [pointer_button_up_ffi, hlook, hm]
  · intro h b p' hlook hm
    simp [pointer_button_down_ffi, hlook, hm]
  · intro h p' hlook hm
    simp [pointer_destroy_ffi, hlook, hm]
  · intro h x y t' hlook hm
    simp [touch_down_ffi, hlook, hm]
  · intro h x y t' hlook hm
    simp [touch_move_ffi, hlook, hm]
  · intro h t' hlook hm
    simp [touch_up_ffi, hlook, hm]
  · intro h t' hlook hm
    simp [touch_destroy_ffi, hlook, hm]

theorem C3_version_assertions_witness :
    create_pointer_ffi testWlcs L0 stBad 18 =
      (stBad, [.panic_logged .create_pointer_ffi], 0) ∧
    pointer_button_up_ffi testPointerImpl L0 stBad 28 4 =
      ({ stBad with pointers := updateAssoc 20 ⟨badP, 11⟩ stBad.pointers },
        [.call_method .button_up]) := by
  have hA := C3_version_assertions testWlcs testPointerImpl testTouchImpl L0 stBad 18
  have hB := C3_version_assertions testWlcs testPointerImpl testTouchImpl L0 stBad 28
  exact ⟨(hA.1 ⟨badDs, 0⟩ rfl (by decide)).2.2.2.2.1,
         hB.2.2.2.2.1 ⟨badP, 7⟩ 4 11 rfl rfl⟩

/-- Every live handle other than the server entry at base address `a` has
the same content in `st'` as in `st` — so every call on another handle is
serviced exactly as before. -/
def agreeExceptServer {σ π τ : Type} (a : Ptr) (st st' : ProcState σ π τ) : Prop :=
  (∀ b, b ≠ a → lookupAssoc b st'.servers = lookupAssoc b st.servers) ∧
  st'.pointers = st.pointers ∧ st'.touches = st.touches

/-- Every live handle other than the pointer entry at base address `a` has
the same content in `st'` as in `st`. -/
def agreeExceptPointer {σ π τ : Type} (a : Ptr) (st st' : ProcState σ π τ) : Prop :=
  st'.servers = st.servers ∧
  (∀ b, b ≠ a → lookupAssoc b st'.pointers = lookupAssoc b st.pointers) ∧
  st'.touches = st.touches

/-- Every live handle other than the touch entry at base address `a` has
the same content in `st'` as in `st`. -/
def agreeExceptTouch {σ π τ : Type} (a : Ptr) (st st' : ProcState σ π τ) : Prop :=
  st'.servers = st.servers ∧ st'.pointers = st.pointers ∧
  (∀ b, b ≠ a → lookupAssoc b st'.touches = lookupAssoc b st.touches)

/-- Claim C1: a panic raised inside the implementation's capability method
during a trampoline call never propagates to the foreign caller — the
pointer-returning trampolines (`create_server_ffi`, `create_pointer_ffi`,
`create_touch_ffi`, `get_descriptor_ffi`) return the null pointer, the
integer-status trampoline (`create_client_socket_ffi`) returns -1, and the
void trampolines (start, stop, position_window_absolute,
start_on_this_thread, and all pointer and touch operations) complete as
no-op calls with the panic merely logged — and every other live handle is
left untouched, so subsequent calls on other handles are serviced exactly
as before. -/
theorem C1_fault_containment {σ π τ : Type} (W : Wlcs σ π τ) (P : Pointer π)
    (T : Touch τ) (L : Layout) (st : ProcState σ π τ) :
    (W.new = .error () → ∀ argc argv,
      (create_server_ffi W L st argc argv).2.2 = 0 ∧
      (create_server_ffi W L st argc argv).1.servers = st.servers ∧
      (create_server_ffi W L st argc argv).1.pointers = st.pointers ∧
      (create_server_ffi W L st argc argv).1.touches = st.touches) ∧
    (∀ ptr h s', lookupAssoc (ptr - L.dsOff) st.servers = some h →
      h.wlcs_display_server.version = 3 → W.create_pointer h.wlcs = .error s' →
      (create_pointer_ffi W L st ptr).2.2 = 0 ∧
      (create_pointer_ffi W L st ptr).2.1 =
        [.call_method .create_pointer, .panic_logged .create_pointer_ffi] ∧
      agreeExceptServer (ptr - L.dsOff) st (create_pointer_ffi W L st ptr).1) ∧
    (∀ ptr h s', lookupAssoc (ptr - L.dsOff) st.servers = some h →
      h.wlcs_display_server.version = 3 → W.create_touch h.wlcs = .error s' →
      (create_touch_ffi W L st ptr).2.2 = 0 ∧
      (create_touch_ffi W L st ptr).2.1 =
        [.call_method .create_touch, .panic_logged .create_touch_ffi] ∧
      agreeExceptServer (ptr - L.dsOff) st (create_touch_ffi W L st ptr).1) ∧
    (∀ ptr h, lookupAssoc (ptr - L.dsOff) st.servers = some h →
      W.get_descriptor h.wlcs = .error () →
      get_descriptor_ffi W L st ptr =
        (st, [.call_method .get_descriptor, .panic_logged .get_descriptor_ffi], 0)) ∧
    (∀ ptr h, lookupAssoc (ptr - L.dsOff) st.servers = some h →
      h.wlcs_display_server.version = 3 → W.create_client_socket h.wlcs = .error () →
      create_client_socket_ffi W L st ptr =
        (st, [.call_method .create_client_socket,
              .panic_logged .create_client_socket_ffi], -1)) ∧
    (∀ ptr h s', lookupAssoc (ptr - L.dsOff) st.servers = some h →
      h.wlcs_display_server.version = 3 → W.start h.wlcs = .error s' →
      (start_server_ffi W L st ptr).2 =
        [.call_method .start, .panic_logged .start_server_ffi] ∧
      agreeExceptServer (ptr - L.dsOff) st (start_server_ffi W L st ptr).1) ∧
    (∀ ptr h s', lookupAssoc (ptr - L.dsOff) st.servers = some h →
      h.wlcs_display_server.version = 3 → W.stop h.wlcs = .error s' →
      (stop_server_ffi W L st ptr).2 =
        [.call_method .stop, .panic_logged .stop_server_ffi] ∧
      agreeExceptServer (ptr - L.dsOff) st (stop_server_ffi W L st ptr).1) ∧
    (∀ ptr h display surface x y, lookupAssoc (ptr - L.dsOff) st.servers = some h →
      h.wlcs_display_server.version = 3 →
      W.position_window_absolute h.wlcs display surface x y = .error () →
      position_window_absolute_ffi W L st ptr display surface x y =
        (st, [.call_method .position_window_absolute,
              .panic_logged .position_window_absolute_ffi])) ∧
    (∀ ptr h event_loop, lookupAssoc (ptr - L.dsOff) st.servers = some h →
      h.wlcs_display_server.version = 3 →
      W.start_on_this_thread h.wlcs event_loop = .error () →
      start_on_this_thread_ffi W L st ptr event_loop =
        (st, [.call_method .start_on_this_thread,
              .panic_logged .start_on_this_thread_ffi])) ∧
    (∀ ptr h x y p', lookupAssoc (ptr - L.pOff) st.pointers = some h →
      P.move_absolute h.p x y = .error p' →
      (pointer_move_absolute_ffi P L st ptr x y).2 =
        [.call_method .move_absolute, .panic_logged .pointer_move_absolute_ffi] ∧
      agreeExceptPointer (ptr - L.pOff) st (pointer_move_absolute_ffi P L st ptr x y).1) ∧
    (∀ ptr h dx dy p', lookupAssoc (ptr - L.pOff) st.pointers = some h →
      P.move_relative h.p dx dy = .error p' →
      (pointer_move_relative_ffi P L st ptr dx dy).2 =
        [.call_method .move_relative, .panic_logged .pointer_move_relative_ffi] ∧
      agreeExceptPointer (ptr - L.pOff) st (pointer_move_relative_ffi P L st ptr dx dy).1) ∧
    (∀ ptr h b p', lookupAssoc (ptr - L.pOff) st.pointers = some h →
      P.button_up h.p b = .error p' →
      (pointer_button_up_ffi P L st ptr b).2 =
        [.call_method .button_up, .panic_logged .pointer_button_up_ffi] ∧
      agreeExceptPointer (ptr - L.pOff) st (pointer_button_up_ffi P L st ptr b).1) ∧
    (∀ ptr h b p', lookupAssoc (ptr - L.pOff) st.pointers = some h →
      P.button_down h.p b = .error p' →
      (pointer_button_down_ffi P L st ptr b).2 =
        [.call_method .button_down, .panic_logged .pointer_button_down_ffi] ∧
      agreeExceptPointer (ptr - L.pOff) st (pointer_button_down_ffi P L st ptr b).1) ∧
    (∀ ptr h p', lookupAssoc (ptr - L.pOff) st.pointers = some h →
      P.destroy h.p = .error p' →
      (pointer_destroy_ffi P L st ptr).2 =
        [.box_from_raw (ptr - L.pOff), .call_method .destroy,
         .drop_box (ptr - L.pOff), .panic_logged .pointer_destroy_ffi] ∧
      agreeExceptPointer (ptr - L.pOff) st (pointer_destroy_ffi P L st ptr).1) ∧
    (∀ ptr h x y t', lookupAssoc (ptr - L.tOff) st.touches = some h →
      T.touch_down h.t x y = .error t' →
      (touch_down_ffi T L st ptr x y).2 =
        [.call_method .touch_down, .panic_logged .touch_down_ffi] ∧
      agreeExceptTouch (ptr - L.tOff) st (touch_down_ffi T L st ptr x y).1) ∧
    (∀ ptr h x y t', lookupAssoc (ptr - L.tOff) st.touches = some h →
      T.touch_move h.t x y = .error t' →
      (touch_move_ffi T L st ptr x y).2 =
        [.call_method .touch_move, .panic_logged .touch_move_ffi] ∧
      agreeExceptTouch (ptr - L.tOff) st (touch_move_ffi T L st ptr x y).1) ∧
    (∀ ptr h t', lookupAssoc (ptr - L.tOff) st.touches = some h →
      T.touch_up h.t = .error t' →
      (touch_up_ffi T L st ptr).2 =
        [.call_method .touch_up, .panic_logged .touch_up_ffi] ∧
      agreeExceptTouch (ptr - L.tOff) st (touch_up_ffi T L st ptr).1) ∧
    (∀ ptr h t', lookupAssoc (ptr - L.tOff) st.touches = some h →
      T.destroy h.t = .error t' →
      (touch_destroy_ffi T L st ptr).2 =
        [.box_from_raw (ptr - L.tOff), .call_method .destroy,
         .drop_box (ptr - L.tOff), .panic_logged .touch_destroy_ffi] ∧
      agreeExceptTouch (ptr - L.tOff) st (touch_destroy_ffi T L st ptr).1) := by
  refine ⟨?_, ?_, ?_, ?_, ?_, ?_, ?_, ?_, ?_, ?_, ?_, ?_, ?_, ?_, ?_, ?_, ?_, ?_⟩
  · intro hnew argc argv
    simp [create_server_ffi, hnew]
  · intro ptr h s' hlook hver herr
    have hst : create_pointer_ffi W L st ptr =
        ({ st with servers := updateAssoc (ptr - L.dsOff) { h with wlcs := s' } st.servers },
          [.call_method .create_pointer, .panic_logged .create_pointer_ffi], 0) := by
      simp [create_pointer_ffi, hlook, hver, herr]
    rw [hst]
    exact ⟨rfl, rfl, fun b hb => lookupAssoc_updateAssoc_ne hb, rfl, rfl⟩
  · intro ptr h s' hlook hver herr
    have hst : create_touch_ffi W L st ptr =
        ({ st with servers := updateAssoc (ptr - L.dsOff) { h with wlcs := s' } st.servers },
          [.call_method .create_touch, .panic_logged .create_touch_ffi], 0) := by
      simp [create_touch_ffi, hlook, hver, herr]
    rw [hst]
    exact ⟨rfl, rfl, fun b hb => lookupAssoc_updateAssoc_ne hb, rfl, rfl⟩
  · intro ptr h hlook herr
    simp [get_descriptor_ffi, get_display_server_handle_ref, hlook, herr]
  · intro ptr h hlook hver herr
    simp [create_client_socket_ffi, hlook, hver, herr]
  · intro ptr h s' hlook hver herr
    have hst : start_server_ffi W L st ptr =
        ({ st with servers := updateAssoc (ptr - L.dsOff) { h with wlcs := s' } st.servers },
          [.call_method .start, .panic_logged .start_server_ffi]) := by
      simp [start_server_ffi, hlook, hver, herr]
    rw [hst]
    exact ⟨rfl, fun b hb => lookupAssoc_updateAssoc_ne hb, rfl, rfl⟩
  · intro ptr h s' hlook hver herr
    have hst : stop_server_ffi W L st ptr =
        ({ st with servers := updateAssoc (ptr - L.dsOff) { h with wlcs := s' } st.servers },
          [.call_method .stop, .panic_logged .stop_server_ffi]) := by
      simp [stop_server_ffi, hlook, hver, herr]
    rw [hst]
    exact ⟨rfl, fun b hb => lookupAssoc_updateAssoc_ne hb, rfl, rfl⟩
  · intro ptr h display surface x y hlook hver herr
    simp [position_window_absolute_ffi, hlook, hver, herr]
  · intro ptr h event_loop hlook hver herr
    simp [start_on_this_thread_ffi, hlook, hver, herr]
  · intro ptr h x y p' hlook herr
    have hst : pointer_move_absolute_ffi P L st ptr x y =
        ({ st with pointers := updateAssoc (ptr - L.pOff) { h with p := p' } st.pointers },
          [.call_method .move_absolute, .panic_logged .pointer_move_absolute_ffi]) := by
      simp [pointer_move_absolute_ffi, hlook, herr]
    rw [hst]
    exact ⟨rfl, rfl, fun b hb => lookupAssoc_updateAssoc_ne hb, rfl⟩
  · intro ptr h dx dy p' hlook herr
    have hst : pointer_move_relative_ffi P L st ptr dx dy =
        ({ st with pointers := updateAssoc (ptr - L.pOff) { h with p := p' } st.pointers },
          [.call_method .move_relative, .panic_logged .pointer_move_relative_ffi]) := by
      simp [pointer_move_relative_ffi, hlook, herr]
    rw [hst]
    exact ⟨rfl, rfl, fun b hb => lookupAssoc_updateAssoc_ne hb, rfl⟩
  · intro ptr h b p' hlook herr
    have hst : pointer_button_up_ffi P L st ptr b =
        ({ st with pointers := updateAssoc (ptr - L.pOff) { h with p := p' } st.pointers },
          [.call_method .button_up, .panic_logged .pointer_button_up_ffi]) := by
      simp [pointer_button_up_ffi, hlook, herr]
    rw [hst]
    exact ⟨rfl, rfl, fun b hb => lookupAssoc_updateAssoc_ne hb, rfl⟩
  · intro ptr h b p' hlook herr
    have hst : pointer_button_down_ffi P L st ptr b =
        ({ st with pointers := updateAssoc (ptr - L.pOff) { h with p := p' } st.pointers },
          [.call_method .button_down, .panic_logged .pointer_button_down_ffi]) := by
      simp [pointer_button_down_ffi, hlook, herr]
    rw [hst]
    exact ⟨rfl, rfl, fun b hb => lookupAssoc_updateAssoc_ne hb, rfl⟩
  · intro ptr h p' hlook herr
    have hst : pointer_destroy_ffi P L st ptr =
        ({ st with pointers := removeAssoc (ptr - L.pOff) st.pointers },
          [.box_from_raw (ptr - L.pOff), .call_method .destroy,
           .drop_box (ptr - L.pOff), .panic_logged .pointer_destroy_ffi]) := by
      simp [pointer_destroy_ffi, hlook, herr]
    rw [hst]
    exact ⟨rfl, rfl, fun b hb => lookupAssoc_removeAssoc_ne hb, rfl⟩
  · intro ptr h x y t' hlook herr
    have hst : touch_down_ffi T L st ptr x y =
        ({ st with touches := updateAssoc (ptr - L.tOff) { h with t := t' } st.touches },
          [.call_method .touch_down, .panic_logged .touch_down_ffi]) := by
      simp [touch_down_ffi, hlook, herr]
    rw [hst]
    exact ⟨rfl, rfl, rfl, fun b hb => lookupAssoc_updateAssoc_ne hb⟩
  · intro ptr h x y t' hlook herr
    have hst : touch_move_ffi T L st ptr x y =
        ({ st with touches := updateAssoc (ptr - L.tOff) { h with t := t' } st.touches },
          [.call_method .touch_move, .panic_logged .touch_move_ffi]) := by
      simp [touch_move_ffi, hlook, herr]
    rw [hst]
    exact ⟨rfl, rfl, rfl, fun b hb => lookupAssoc_updateAssoc_ne hb⟩
  · intro ptr h t' hlook herr
    have hst : touch_up_ffi T L st ptr =
        ({ st with touches := updateAssoc (ptr - L.tOff) { h with t := t' } st.touches },
          [.call_method .touch_up, .panic_logged .touch_up_ffi]) := by
      simp [touch_up_ffi, hlook, herr]
    rw [hst]
    exact ⟨rfl, rfl, rfl, fun b hb => lookupAssoc_updateAssoc_ne hb⟩
  · intro ptr h t' hlook herr
    have hst : touch_destroy_ffi T L st ptr =
        ({ st with touches := removeAssoc (ptr - L.tOff) st.touches },
          [.box_from_raw (ptr - L.tOff), .call_method .destroy,
           .drop_box (ptr - L.tOff), .panic_logged .touch_destroy_ffi]) := by
      simp [touch_destroy_ffi, hlook, herr]
    rw [hst]
    exact ⟨rfl, rfl, rfl, fun b hb => lookupAssoc_removeAssoc_ne hb⟩

theorem C1_fault_containment_witness :
    create_client_socket_ffi panicWlcs L0 stGood 18 =
      (stGood, [.call_method .create_client_socket,
                .panic_logged .create_client_socket_ffi], -1) ∧
    ((pointer_move_absolute_ffi panicPointerImpl L0 stGood 28 2 3).2 =
        [.call_method .move_absolute, .panic_logged .pointer_move_absolute_ffi] ∧
      agreeExceptPointer 20 stGood
        (pointer_move_absolute_ffi panicPointerImpl L0 stGood 28 2 3).1) := by
  have hc := C1_fault_containment panicWlcs panicPointerImpl panicTouchImpl L0 stGood
  exact ⟨hc.2.2.2.2.1 18 ⟨wlcs_display_server, 0⟩ rfl rfl rfl,
         hc.2.2.2.2.2.2.2.2.2.1 28 ⟨wlcs_pointer, 7⟩ 2 3 7 rfl rfl⟩

theorem exists_header_update_server {σ : Type} {a : Ptr} {h : DisplayServerHandle σ}
    {l : List (Ptr × DisplayServerHandle σ)} (hlook : lookupAssoc a l = some h) (s' : σ) :
    ∃ h', lookupAssoc a (updateAssoc a { h with wlcs := s' } l) = some h' ∧
      h'.wlcs_display_server = h.wlcs_display_server :=
  ⟨{ h with wlcs := s' }, lookupAssoc_updateAssoc_self hlook, rfl⟩

theorem exists_header_update_pointer {π : Type} {a : Ptr} {h : PointerHandle π}
    {l : List (Ptr × PointerHandle π)} (hlook : lookupAssoc a l = some h) (p' : π) :
    ∃ h', lookupAssoc a (updateAssoc a { h with p := p' } l) = some h' ∧
      h'.wlcs_pointer = h.wlcs_pointer :=
  ⟨{ h with p := p' }, lookupAssoc_updateAssoc_self hlook, rfl⟩

theorem exists_header_update_touch {τ : Type} {a : Ptr} {h : TouchHandle τ}
    {l : List (Ptr × TouchHandle τ)} (hlook : lookupAssoc a l = some h) (t' : τ) :
    ∃ h', lookupAssoc a (updateAssoc a { h with t := t' } l) = some h' ∧
      h'.wlcs_touch = h.wlcs_touch :=
  ⟨{ h with t := t' }, lookupAssoc_updateAssoc_self hlook, rfl⟩

/-- Claim C10: every non-destroying trampoline preserves the Handle's
header unchanged — after any instance, pointer or touch operation other
than destroy, the handle at the same base address still exists and its
header (version tag and all operation-pointer slots) equals its value
before the call, whatever the user method does to the implementation
object and whatever it returns. -/
theorem C10_header_preserved {σ π τ : Type} (W : Wlcs σ π τ) (P : Pointer π)
    (T : Touch τ) (L : Layout) (st : ProcState σ π τ) :
    (∀ ptr h, lookupAssoc (ptr - L.dsOff) st.servers = some h →
      ∃ h', lookupAssoc (ptr - L.dsOff) (start_server_ffi W L st ptr).1.servers = some h' ∧
        h'.wlcs_display_server = h.wlcs_display_server) ∧
    (∀ ptr h, lookupAssoc (ptr - L.dsOff) st.servers = some h →
      ∃ h', lookupAssoc (ptr - L.dsOff) (stop_server_ffi W L st ptr).1.servers = some h' ∧
        h'.wlcs_display_server = h.wlcs_display_server) ∧
    (∀ ptr h, lookupAssoc (ptr - L.dsOff) st.servers = some h →
      ∃ h', lookupAssoc (ptr - L.dsOff)
          (create_client_socket_ffi W L st ptr).1.servers = some h' ∧
        h'.wlcs_display_server = h.wlcs_display_server) ∧
    (∀ ptr h display surface x y, lookupAssoc (ptr - L.dsOff) st.servers = some h →
      ∃ h', lookupAssoc (ptr - L.dsOff)
          (position_window_absolute_ffi W L st ptr display surface x y).1.servers = some h' ∧
        h'.wlcs_display_server = h.wlcs_display_server) ∧
    (∀ ptr h, lookupAssoc (ptr - L.dsOff) st.servers = some h →
      ∃ h', lookupAssoc (ptr - L.dsOff) (create_pointer_ffi W L st ptr).1.servers = some h' ∧
        h'.wlcs_display_server = h.wlcs_display_server) ∧
    (∀ ptr h, lookupAssoc (ptr - L.dsOff) st.servers = some h →
      ∃ h', lookupAssoc (ptr - L.dsOff) (create_touch_ffi W L st ptr).1.servers = some h' ∧
        h'.wlcs_display_server = h.wlcs_display_server) ∧
    (∀ ptr h, lookupAssoc (ptr - L.dsOff) st.servers = some h →
      ∃ h', lookupAssoc (ptr - L.dsOff) (get_descriptor_ffi W L st ptr).1.servers = some h' ∧
        h'.wlcs_display_server = h.wlcs_display_server) ∧
    (∀ ptr h event_loop, lookupAssoc (ptr - L.dsOff) st.servers = some h →
      ∃ h', lookupAssoc (ptr - L.dsOff)
          (start_on_this_thread_ffi W L st ptr event_loop).1.servers = some h' ∧
        h'.wlcs_display_server = h.wlcs_display_server) ∧
    (∀ ptr h x y, lookupAssoc (ptr - L.pOff) st.pointers = some h →
      ∃ h', lookupAssoc (ptr - L.pOff)
          (pointer_move_absolute_ffi P L st ptr x y).1.pointers = some h' ∧
        h'.wlcs_pointer = h.wlcs_pointer) ∧
    (∀ ptr h dx dy, lookupAssoc (ptr - L.pOff) st.pointers = some h →
      ∃ h', lookupAssoc (ptr - L.pOff)
          (pointer_move_relative_ffi P L st ptr dx dy).1.pointers = some h' ∧
        h'.wlcs_pointer = h.wlcs_pointer) ∧
    (∀ ptr h b, lookupAssoc (ptr - L.pOff) st.pointers = some h →
      ∃ h', lookupAssoc (ptr - L.pOff)
          (pointer_button_up_ffi P L st ptr b).1.pointers = some h' ∧
        h'.wlcs_pointer = h.wlcs_pointer) ∧
    (∀ ptr h b, lookupAssoc (ptr - L.pOff) st.pointers = some h →
      ∃ h', lookupAssoc (ptr - L.pOff)
          (pointer_button_down_ffi P L st ptr b).1.pointers = some h' ∧
        h'.wlcs_pointer = h.wlcs_pointer) ∧
    (∀ ptr h x y, lookupAssoc (ptr - L.tOff) st.touches = some h →
      ∃ h', lookupAssoc (ptr - L.tOff) (touch_down_ffi T L st ptr x y).1.touches = some h' ∧
        h'.wlcs_touch = h.wlcs_touch) ∧
    (∀ ptr h x y, lookupAssoc (ptr - L.tOff) st.touches = some h →
      ∃ h', lookupAssoc (ptr - L.tOff) (touch_move_ffi T L st ptr x y).1.touches = some h' ∧
        h'.wlcs_touch = h.wlcs_touch) ∧
    (∀ ptr h, lookupAssoc (ptr - L.tOff) st.touches = some h →
      ∃ h', lookupAssoc (ptr - L.tOff) (touch_up_ffi T L st ptr).1.touches = some h' ∧
        h'.wlcs_touch = h.wlcs_touch) := by
  refine ⟨?_, ?_, ?_, ?_, ?_, ?_, ?_, ?_, ?_, ?_, ?_, ?_, ?_, ?_, ?_⟩
  · intro ptr h hlook
    by_cases hver : h.wlcs_display_server.version = 3
    · have hex : ∃ s', (start_server_ffi W L st ptr).1.servers =
          updateAssoc (ptr - L.dsOff) { h with wlcs := s' } st.servers := by
        cases hs : W.start h.wlcs with
        | ok s' => exact ⟨s', by simp [start_server_ffi, hlook, hver, hs]⟩
        | error s' => exact ⟨s', by simp [start_server_ffi, hlook, hver, hs]⟩
      obtain ⟨s', hst⟩ := hex
      rw [hst]
      exact exists_header_update_server hlook s'
    · have hst : (start_server_ffi W L st ptr).1 = st := by
        simp [start_server_ffi, hlook, hver]
      rw [hst]
      exact ⟨h, hlook, rfl⟩
  · intro ptr h hlook
    by_cases hver : h.wlcs_display_server.version = 3
    · have hex : ∃ s', (stop_server_ffi W L st ptr).1.servers =
          updateAssoc (ptr - L.dsOff) { h with wlcs := s' } st.servers := by
        cases hs : W.stop h.wlcs with
        | ok s' => exact ⟨s', by simp [stop_server_ffi, hlook, hver, hs]⟩
        | error s' => exact ⟨s', by simp [stop_server_ffi, hlook, hver, hs]⟩
      obtain ⟨s', hst⟩ := hex
      rw [hst]
      exact exists_header_update_server hlook s'
    · have hst : (stop_server_ffi W L st ptr).1 = st := by
        simp [stop_server_ffi, hlook, hver]
      rw [hst]
      exact ⟨h, hlook, rfl⟩
  · intro ptr h hlook
    refine ⟨h, ?_, rfl⟩
    by_cases hver : h.wlcs_display_server.version = 3
    · cases hm : W.create_client_socket h.wlcs with
      | ok fd => simp [create_client_socket_ffi, hlook, hver, hm]
      | error e => simp [create_client_socket_ffi, hlook, hver, hm]
    · simp [create_client_socket_ffi, hlook, hver]
  · intro ptr h display surface x y hlook
    refine ⟨h, ?_, rfl⟩
    by_cases hver : h.wlcs_display_server.version = 3
    · cases hm : W.position_window_absolute h.wlcs display surface x y with
      | ok u => simp [position_window_absolute_ffi, hlook, hver, hm]
      | error e => simp [position_window_absolute_ffi, hlook, hver, hm]
    · simp [position_window_absolute_ffi, hlook, hver]
  · intro ptr h hlook
    by_cases hver : h.wlcs_display_server.version = 3
    · have hex : ∃ s', (create_pointer_ffi W L st ptr).1.servers =
          updateAssoc (ptr - L.dsOff) { h with wlcs := s' } st.servers := by
        cases hm : W.create_pointer h.wlcs with
        | ok pr =>
          obtain ⟨s', r⟩ := pr
          cases r with
          | none => exact ⟨s', by simp [create_pointer_ffi, hlook, hver, hm]⟩
          | some p => exact ⟨s', by simp [create_pointer_ffi, hlook, hver, hm]⟩
        | error s' => exact ⟨s', by simp [create_pointer_ffi, hlook, hver, hm]⟩
      obtain ⟨s', hst⟩ := hex
      rw [hst]
      exact exists_header_update_server hlook s'
    · have hst : (create_pointer_ffi W L st ptr).1 = st := by
        simp [create_pointer_ffi, hlook, hver]
      rw [hst]
      exact ⟨h, hlook, rfl⟩
  · intro ptr h hlook
    by_cases hver : h.wlcs_display_server.version = 3
    · have hex : ∃ s', (create_touch_ffi W L st ptr).1.servers =
          updateAssoc (ptr - L.dsOff) { h with wlcs := s' } st.servers := by
        cases hm : W.create_touch h.wlcs with
        | ok pr =>
          obtain ⟨s', r⟩ := pr
          cases r with
          | none => exact ⟨s', by simp [create_touch_ffi, hlook, hver, hm]⟩
          | some t => exact ⟨s', by simp [create_touch_ffi, hlook, hver, hm]⟩
        | error s' => exact ⟨s', by simp [create_touch_ffi, hlook, hver, hm]⟩
      obtain ⟨s', hst⟩ := hex
      rw [hst]
      exact exists_header_update_server hlook s'
    · have hst : (create_touch_ffi W L st ptr).1 = st := by
        simp [create_touch_ffi, hlook, hver]
      rw [hst]
      exact ⟨h, hlook, rfl⟩
  · intro ptr h hlook
    refine ⟨h, ?_, rfl⟩
    cases hm : W.get_descriptor h.wlcs with
    | ok d => simp [get_descriptor_ffi, get_display_server_handle_ref, hlook, hm]
    | error e => simp [get_descriptor_ffi, get_display_server_handle_ref, hlook, hm]
  · intro ptr h event_loop hlook
    refine ⟨h, ?_, rfl⟩
    by_cases hver : h.wlcs_display_server.version = 3
    · cases hm : W.start_on_this_thread h.wlcs event_loop with
      | ok u => simp [start_on_this_thread_ffi, hlook, hver, hm]
      | error e => simp [start_on_this_thread_ffi, hlook, hver, hm]
    · simp [start_on_this_thread_ffi, hlook, hver]
  · intro ptr h x y hlook
    have hex : ∃ p', (pointer_move_absolute_ffi P L st ptr x y).1.pointers =
        updateAssoc (ptr - L.pOff) { h with p := p' } st.pointers := by
      cases hm : P.move_absolute h.p x y with
      | ok p' => exact ⟨p', by simp [pointer_move_absolute_ffi, hlook, hm]⟩
      | error p' => exact ⟨p', by simp [pointer_move_absolute_ffi, hlook, hm]⟩
    obtain ⟨p', hst⟩ := hex
    rw [hst]
    exact exists_header_update_pointer hlook p'
  · intro ptr h dx dy hlook
    have hex : ∃ p', (pointer_move_relative_ffi P L st ptr dx dy).1.pointers =
        updateAssoc (ptr - L.pOff) { h with p := p' } st.pointers := by
      cases hm : P.move_relative h.p dx dy with
      | ok p' => exact ⟨p', by simp [pointer_move_relative_ffi, hlook, hm]⟩
      | error p' => exact ⟨p', by simp [pointer_move_relative_ffi, hlook, hm]⟩
    obtain ⟨p', hst⟩ := hex
    rw [hst]
    exact exists_header_update_pointer hlook p'
  · intro ptr h b hlook
    have hex : ∃ p', (pointer_button_up_ffi P L st ptr b).1.pointers =
        updateAssoc (ptr - L.pOff) { h with p := p' } st.pointers := by
      cases hm : P.button_up h.p b with
      | ok p' => exact ⟨p', by simp [pointer_button_up_ffi, hlook, hm]⟩
      | error p' => exact ⟨p', by simp [pointer_button_up_ffi, hlook, hm]⟩
    obtain ⟨p', hst⟩ := hex
    rw [hst]
    exact exists_header_update_pointer hlook p'
  · intro ptr h b hlook
    have hex : ∃ p', (pointer_button_down_ffi P L st ptr b).1.pointers =
        updateAssoc (ptr - L.pOff) { h with p := p' } st.pointers := by
      cases hm : P.button_down h.p b with
      | ok p' => exact ⟨p', by simp [pointer_button_down_ffi, hlook, hm]⟩
      | error p' => exact ⟨p', by simp [pointer_button_down_ffi, hlook, hm]⟩
    obtain ⟨p', hst⟩ := hex
    rw [hst]
    exact exists_header_update_pointer hlook p'
  · intro ptr h x y hlook
    have hex : ∃ t', (touch_down_ffi T L st ptr x y).1.touches =
        updateAssoc (ptr - L.tOff) { h with t := t' } st.touches := by
      cases hm : T.touch_down h.t x y with
      | ok t' => exact ⟨t', by simp [touch_down_ffi, hlook, hm]⟩
      | error t' => exact ⟨t', by simp [touch_down_ffi, hlook, hm]⟩
    obtain ⟨t', hst⟩ := hex
    rw [hst]
    exact exists_header_update_touch hlook t'
  · intro ptr h x y hlook
    have hex : ∃ t', (touch_move_ffi T L st ptr x y).1.touches =
        updateAssoc (ptr - L.tOff) { h with t := t' } st.touches := by
      cases hm : T.touch_move h.t x y with
      | ok t' => exact ⟨t', by simp [touch_move_ffi, hlook, hm]⟩
      | error t' => exact ⟨t', by simp [touch_move_ffi, hlook, hm]⟩
    obtain ⟨t', hst⟩ := hex
    rw [hst]
    exact exists_header_update_touch hlook t'
  · intro ptr h hlook
    have hex : ∃ t', (touch_up_ffi T L st ptr).1.touches =
        updateAssoc (ptr - L.tOff) { h with t := t' } st.touches := by
      cases hm : T.touch_up h.t with
      | ok t' => exact ⟨t', by simp [touch_up_ffi, hlook, hm]⟩
      | error t' => exact ⟨t', by simp [touch_up_ffi, hlook, hm]⟩
    obtain ⟨t', hst⟩ := hex
    rw [hst]
    exact exists_header_update_touch hlook t'

theorem C10_header_preserved_witness :
    (∃ h', lookupAssoc 10 (start_server_ffi testWlcs L0 stGood 18).1.servers = some h' ∧
      h'.wlcs_display_server = wlcs_display_server) ∧
    (∃ h', lookupAssoc 20
        (pointer_move_absolute_ffi testPointerImpl L0 stGood 28 2 3).1.pointers = some h' ∧
      h'.wlcs_pointer = wlcs_pointer) := by
  have hc := C10_header_preserved testWlcs testPointerImpl testTouchImpl L0 stGood
  exact ⟨hc.1 18 ⟨wlcs_display_server, 0⟩ rfl,
         hc.2.2.2.2.2.2.2.2.1 28 ⟨wlcs_pointer, 7⟩ 2 3 rfl⟩

end WlcsRs
